import Mathlib

/-!
# Verification of dta_xlsform (`src/dta_xlsform/converter.py`)

Shallow embedding of the converter in `converter.py`: the schema
inferencer (`_infer_question_type`), the three sheet builders
(`generate_survey_sheet`, `generate_choices_sheet`,
`generate_settings_sheet`), the variable-info summary
(`get_variable_info`), the constructor logic (`__init__`, `_read_file`)
and the `data_to_xlsform` entry point.  Pure string and path helpers
mirror the Python builtins the code uses (`str.lower`, `str.upper`,
`str.replace`, `str.title`, `str` on ints, `os.path.basename`,
`os.path.splitext`).  The dataset loader (pyreadstat) and the
spreadsheet writer (openpyxl) are external collaborators and are
modelled as abstract parameters.
-/

namespace DtaXlsform

/-! ## Python string builtins (ASCII semantics) -/

/-- `str.lower()` on a string: lowercase every character. -/
def pyLower (s : String) : String := ⟨s.data.map Char.toLower⟩

/-- `str.upper()` on a string: uppercase every character. -/
def pyUpper (s : String) : String := ⟨s.data.map Char.toUpper⟩

/-- `str.replace('_', ' ')`: replace every underscore with a space. -/
def pyReplaceUnderscore (s : String) : String :=
  ⟨s.data.map (fun c => if c = '_' then ' ' else c)⟩

/-- One step of Python `str.title()`: a cased (alphabetic) character is
uppercased when the previous character was not cased, lowercased when it
was; non-alphabetic characters pass through and reset the word. -/
def pyTitleAux : List Char → Bool → List Char
  | [], _ => []
  | c :: cs, prevCased =>
    (if c.isAlpha then (if prevCased then c.toLower else c.toUpper) else c)
      :: pyTitleAux cs c.isAlpha

/-- `str.title()` as used on the form id in `generate_settings_sheet`. -/
def pyTitle (s : String) : String := ⟨pyTitleAux s.data false⟩

/-- Decimal digit character for `n < 10` (and `'9'` above, never reached
by the renderer below). -/
def decDigit (n : Nat) : Char :=
  if n = 0 then '0' else if n = 1 then '1' else if n = 2 then '2'
  else if n = 3 then '3' else if n = 4 then '4' else if n = 5 then '5'
  else if n = 6 then '6' else if n = 7 then '7' else if n = 8 then '8'
  else '9'

/-- Fuel-driven most-significant-first decimal rendering of a natural
number, accumulating output on the right.  `fuel = n + 1` always
suffices since `n / 10 < n` for `n ≥ 10`. -/
def natDigitsAux : Nat → Nat → List Char → List Char
  | 0, _, acc => acc
  | fuel + 1, n, acc =>
    if n < 10 then decDigit n :: acc
    else natDigitsAux fuel (n / 10) (decDigit (n % 10) :: acc)

/-- Python `str` on a non-negative integer. -/
def pyStrNat (n : Nat) : String := ⟨natDigitsAux (n + 1) n []⟩

/-- Python `str(value)` for an integer value label code: plain decimal,
a leading minus for negatives, no decimal point, no padding. -/
def pyStrInt (i : Int) : String :=
  if i < 0 then ⟨'-' :: (pyStrNat i.natAbs).data⟩ else pyStrNat i.natAbs

/-! ## Python path helpers -/

/-- `os.path.basename`: the part of the path after the last `'/'`. -/
def basenameAux : List Char → List Char → List Char
  | [], acc => acc
  | c :: cs, acc => if c = '/' then basenameAux cs [] else basenameAux cs (acc ++ [c])

/-- `os.path.basename` on a string path. -/
def pyBasename (p : String) : String := ⟨basenameAux p.data []⟩

/-- Split a path component at its LAST dot: `some (before, fromDot)`
when a dot exists, `none` otherwise. -/
def lastDotSplit : List Char → Option (List Char × List Char)
  | [] => none
  | c :: cs =>
    match lastDotSplit cs with
    | some (pre, suf) => some (c :: pre, suf)
    | none => if c = '.' then some ([], c :: cs) else none

/-- `os.path.splitext` on a single path component (no `'/'`): split at
the last dot unless every character before it is also a dot (Python
treats leading dots as part of the root, so `".bashrc"` has no
extension). -/
def splitextBase (b : List Char) : List Char × List Char :=
  match lastDotSplit b with
  | some (pre, suf) => if pre.any (fun c => c ≠ '.') then (pre, suf) else (b, [])
  | none => (b, [])

/-- `os.path.splitext(p)[1]`: the extension of the last path component. -/
def pyExt (p : String) : String := ⟨(splitextBase (basenameAux p.data [])).2⟩

/-- `os.path.splitext(b)[0]` for a path component `b` (as applied to
`os.path.basename(self.file_path)` in `generate_settings_sheet`). -/
def splitextRoot (b : String) : String := ⟨(splitextBase b.data).1⟩

/-! ## Data model

A parsed dataset column (`self.df[var]`): pandas stores a dtype per
column; `_infer_question_type` only inspects which of the
`pd.api.types.is_integer_dtype` / `is_float_dtype` / `is_bool_dtype`
predicates holds, so the dtype is modelled as that classification. -/

/-- Storage kind of a column, as classified by the `pd.api.types`
predicates used in `_infer_question_type`. -/
inductive StorageKind where
  | integer
  | floating
  | boolean
  | other
deriving DecidableEq, BEq

/-- The pandas `str(dtype)` rendering for each storage kind (the common
dtypes produced by pyreadstat). -/
def dtypeStr : StorageKind → String
  | .integer => "int64"
  | .floating => "float64"
  | .boolean => "bool"
  | .other => "object"

/-- One column of `self.df`: its name, its dtype classification and its
values (modelled as integers; only their multiset of distinct values is
ever observed, by `nunique`). -/
structure Column where
  name : String
  kind : StorageKind
  values : List Int
deriving DecidableEq

/-- Python `dict` lookup (`d[k]` / `d.get(k)`) on an association list
with the key-uniqueness a `dict` guarantees; first match wins. -/
def dictGet {α : Type} : List (String × α) → String → Option α
  | [], _ => none
  | (k, v) :: rest, key => if k = key then some v else dictGet rest key

/-- `self.df[var_name]` by column name (`df.columns` of a Stata/SPSS
dataset are unique, so this finds the column itself). -/
def findCol (df : List Column) (var : String) : Option Column :=
  df.find? (fun c => c.name == var)

/-- A value in `metadata.variable_value_labels`: either a code→label
dictionary (new pyreadstat format) or the name of a label set (old
format), exactly the two `isinstance` cases in `_read_file`. -/
inductive LabelValue where
  | dict (d : List (Int × String))
  | str (s : String)
deriving DecidableEq

/-- The pyreadstat metadata container fields read by `_read_file`. -/
structure Metadata where
  column_names_to_labels : List (String × String)
  variable_value_labels : List (String × LabelValue)
  value_labels : List (String × List (Int × String))
deriving DecidableEq

/-- Raw bytes of a file on disk; only the external loader interprets
them. -/
structure RawFile where
  bytes : List Nat
deriving DecidableEq

/-- A generated XLSForm workbook: the three sheets written by
`to_xlsform`, in their fixed tab order. -/
structure SurveyRow where
  type : String
  name : String
  label : String
deriving DecidableEq

/-- One row of the `choices` sheet. -/
structure ChoiceRow where
  list_name : String
  name : String
  label : String
deriving DecidableEq

/-- The single row of the `settings` sheet. -/
structure SettingsRow where
  form_title : String
  form_id : String
deriving DecidableEq

/-- The workbook written by `to_xlsform` (tabs `survey`, `choices`,
`settings`, in that order). -/
structure Workbook where
  survey : List SurveyRow
  choices : List ChoiceRow
  settings : List SettingsRow
deriving DecidableEq

/-- Content stored at a path: an input data file or a written workbook. -/
inductive FileData where
  | raw (r : RawFile)
  | workbook (wb : Workbook)
deriving DecidableEq

/-- The filesystem as seen by the converter: a mapping from paths to
file contents.  `os.path.exists` is a lookup; writing the output
workbook adds or overwrites one entry. -/
structure World where
  files : List (String × FileData)
deriving DecidableEq

/-- `os.path.exists` / opening a path. -/
def World.lookup (w : World) (p : String) : Option FileData := dictGet w.files p

/-- Writing the workbook at the output path (overwrite-or-create). -/
def World.write (w : World) (p : String) (d : FileData) : World :=
  ⟨(p, d) :: w.files.filter (fun kv => kv.1 ≠ p)⟩

/-- The external pyreadstat loader: `read_dta` (with an encoding
argument) and `read_sav`, each returning a dataframe plus metadata or
raising an error (modelled as the error message string). -/
structure Loader where
  read_dta : FileData → String → Except String (List Column × Metadata)
  read_sav : FileData → Except String (List Column × Metadata)

/-- The errors `DataToXLSForm` raises: `FileNotFoundError` and
`ValueError`, each carrying its message. -/
inductive ConvError where
  | notFound (msg : String)
  | valueError (msg : String)
deriving DecidableEq

/-- The state a successfully constructed `DataToXLSForm` holds:
`file_path`, `file_type`, `df`, `variable_labels`, `value_labels`. -/
structure Converter where
  file_path : String
  file_type : String
  df : List Column
  variable_labels : List (String × String)
  value_labels : List (String × List (Int × String))
deriving DecidableEq

/-! ## `_read_file` and `__init__` -/

/-- The encoding-fallback loop in `_read_file`: try each encoding in
order, return the first success, re-raise the error of the last
attempt if every attempt fails.  The source iterates a fixed non-empty
list, so the empty case is unreachable. -/
def tryEncodings (L : Loader) (fd : FileData) : List String → Except String (List Column × Metadata)
  | [] => .error "no encodings"
  | [e] => L.read_dta fd e
  | e :: e2 :: rest =>
    match L.read_dta fd e with
    | .ok r => .ok r
    | .error _ => tryEncodings L fd (e2 :: rest)

/-- The value-label extraction loop of `_read_file`: a dict value is
taken as-is (new format); a string value is resolved through
`metadata.value_labels` and dropped when the named label set is absent
(old format). -/
def extractValueLabels (meta : Metadata) : List (String × List (Int × String)) :=
  meta.variable_value_labels.foldl
    (fun acc kv =>
      match kv.2 with
      | .dict d => acc ++ [(kv.1, d)]
      | .str s =>
        match dictGet meta.value_labels s with
        | some d => acc ++ [(kv.1, d)]
        | none => acc)
    []

/-- `_read_file`: dispatch on `self.file_type` (Stata with the encoding
fallback, SPSS, otherwise `ValueError("Unsupported file type: ...")`),
then extract the label mappings; any error raised inside the `try`
block is re-raised as `ValueError("Error reading <TYPE> file: <msg>")`. -/
def read_file (L : Loader) (fd : FileData) (file_path file_type : String) :
    Except ConvError Converter :=
  let inner : Except String (List Column × Metadata) :=
    if file_type = "stata" then
      tryEncodings L fd ["utf-8", "windows-1252", "iso-8859-1", "latin1"]
    else if file_type = "spss" then
      L.read_sav fd
    else
      .error ("Unsupported file type: " ++ file_type)
  match inner with
  | .error msg =>
    .error (.valueError ("Error reading " ++ pyUpper file_type ++ " file: " ++ msg))
  | .ok (df, meta) =>
    .ok { file_path := file_path
          file_type := file_type
          df := df
          variable_labels := meta.column_names_to_labels
          value_labels := extractValueLabels meta }

/-- `DataToXLSForm.__init__`: existence check first, then file-type
inference from the lowercased extension when no explicit type is given
(explicit types are lowercased), then `_read_file`. -/
def DataToXLSForm (L : Loader) (w : World) (file_path : String)
    (file_type : Option String) : Except ConvError Converter :=
  match w.lookup file_path with
  | none => .error (.notFound ("File not found: " ++ file_path))
  | some fd =>
    match file_type with
    | none =>
      if pyLower (pyExt file_path) = ".dta" then read_file L fd file_path "stata"
      else if pyLower (pyExt file_path) = ".sav" then read_file L fd file_path "spss"
      else
        .error (.valueError ("Cannot infer file type from extension '" ++
          pyLower (pyExt file_path) ++
          "'. Please specify file_type='stata' or file_type='spss'"))
    | some t => read_file L fd file_path (pyLower t)

/-! ## Schema inferencer and sheet builders -/

/-- `_infer_question_type`: membership of the name in
`self.value_labels` decides `select_one <name>_choices`; otherwise the
dtype of `self.df[var_name]` decides.  The `dtype` argument is unused
in the source.  A name absent from the dataframe would raise a
`KeyError` in Python; every call site passes a name of an existing
column, so that branch is unreachable (modelled as `"text"`). -/
def Converter.infer_question_type (c : Converter) (var_name : String)
    (_dtype : String) : String :=
  if (dictGet c.value_labels var_name).isSome then
    "select_one " ++ var_name ++ "_choices"
  else
    match findCol c.df var_name with
    | some col =>
      match col.kind with
      | .integer => "integer"
      | .floating => "decimal"
      | .boolean => "select_one yes_no"
      | .other => "text"
    | none => "text"

/-- `generate_survey_sheet`: one row per dataframe column, in order;
the label falls back to the column name. -/
def Converter.generate_survey_sheet (c : Converter) : List SurveyRow :=
  c.df.map fun col =>
    { type := c.infer_question_type col.name (dtypeStr col.kind)
      name := col.name
      label := (dictGet c.variable_labels col.name).getD col.name }

/-- The nested loop of `generate_choices_sheet` over
`self.value_labels.items()`: one choice row per (code, label) pair, in
iteration order, with `str(value)` as the choice name. -/
def choiceRowsOf : List (String × List (Int × String)) → List ChoiceRow
  | [] => []
  | (var, pairs) :: rest =>
    pairs.map (fun p => { list_name := var ++ "_choices"
                          name := pyStrInt p.1
                          label := p.2 })
      ++ choiceRowsOf rest

/-- `generate_choices_sheet`: the two fixed `yes_no` rows first, then
the rows generated from `self.value_labels`. -/
def Converter.generate_choices_sheet (c : Converter) : List ChoiceRow :=
  { list_name := "yes_no", name := "1", label := "Yes" } ::
  { list_name := "yes_no", name := "0", label := "No" } ::
  choiceRowsOf c.value_labels

/-- `generate_settings_sheet`: `form_id` defaults to the basename of
`self.file_path` without its extension; `form_title` defaults to the
`form_id` with underscores replaced by spaces and `str.title()`
applied. -/
def Converter.generate_settings_sheet (c : Converter)
    (form_id form_title : Option String) : SettingsRow :=
  let fid := form_id.getD (splitextRoot (pyBasename c.file_path))
  let ftl := form_title.getD (pyTitle (pyReplaceUnderscore fid))
  { form_title := ftl, form_id := fid }

/-- `get_variable_info`: the diagnostic per-column summary; a missing
variable label is reported as the empty string, and `nunique()` is the
number of distinct values. -/
def Converter.get_variable_info (c : Converter) : List (String × String × String × Bool × Nat) :=
  c.df.map fun col =>
    (col.name,
     (dictGet c.variable_labels col.name).getD "",
     dtypeStr col.kind,
     (dictGet c.value_labels col.name).isSome,
     col.values.dedup.length)

/-- `to_xlsform`: build the three sheets and write them as one workbook
at the output path. -/
def Converter.to_xlsform (c : Converter) (w : World) (output_path : String)
    (form_id form_title : Option String) : World :=
  let wb : Workbook :=
    { survey := c.generate_survey_sheet
      choices := c.generate_choices_sheet
      settings := [c.generate_settings_sheet form_id form_title] }
  w.write output_path (.workbook wb)

/-- The `data_to_xlsform` entry point: construct the converter (which
may raise), then write the workbook.  The pair returned is the
filesystem after the call together with the raised error or the
converter instance; an error propagates with the filesystem untouched. -/
def data_to_xlsform (L : Loader) (w : World) (file_path output_path : String)
    (form_id form_title file_type : Option String) :
    World × Except ConvError Converter :=
  match DataToXLSForm L w file_path file_type with
  | .error e => (w, .error e)
  | .ok conv => (conv.to_xlsform w output_path form_id form_title, .ok conv)

/-! ## Specification-side definitions (for refinement comparison)

These follow the spec's words, to be compared with the definitions
translated from the source above. -/

/-- First-match-wins evaluation of an ordered list of (guard, result)
rules with a catch-all default, the shape of the spec's decision
order. -/
def firstMatch : List (Bool × String) → String → String
  | [], dflt => dflt
  | (g, r) :: rest, dflt => if g then r else firstMatch rest dflt

/-- The spec's inference decision order, word for word: rule 1 fires
only on a NON-empty value-label entry; the storage-kind rules follow;
`text` is the catch-all. -/
def specInferType (value_labels : List (String × List (Int × String)))
    (var_name : String) (kind : StorageKind) : String :=
  match dictGet value_labels var_name with
  | some (_ :: _) => "select_one " ++ var_name ++ "_choices"
  | _ =>
    match kind with
    | .integer => "integer"
    | .floating => "decimal"
    | .boolean => "select_one yes_no"
    | .other => "text"

/-- Split a character list into its space-separated words. -/
def splitOnSpace : List Char → List (List Char)
  | [] => [[]]
  | c :: cs =>
    match splitOnSpace cs with
    | [] => [[]]
    | w :: ws => if c = ' ' then [] :: w :: ws else (c :: w) :: ws

/-- Re-join space-separated words. -/
def joinSpace : List (List Char) → List Char
  | [] => []
  | [w] => w
  | w :: ws => w ++ ' ' :: joinSpace ws

/-- Capitalizing one word as the spec's words describe the title
fallback: the word's first letter uppercased. -/
def specCapFirst : List Char → List Char
  | [] => []
  | c :: cs => c.toUpper :: cs

/-- The spec's description of the `form_title` fallback, word for word:
the form id with underscores replaced by spaces and each word's first
letter capitalized. -/
def specFormTitle (form_id : String) : String :=
  ⟨joinSpace ((splitOnSpace (pyReplaceUnderscore form_id).data).map specCapFirst)⟩

/-- Title-casing one maximal run of letters: first letter uppercased,
the remaining letters lowercased. -/
def capRun : List Char → List Char
  | [] => []
  | c :: cs => c.toUpper :: cs.map Char.toLower

/-- Run-based description of Python `str.title()`: each maximal run of
alphabetic characters is capitalized as a word; every non-alphabetic
character (spaces, digits, punctuation) passes through unchanged and
separates runs. -/
def titleRuns : List Char → List Char
  | [] => []
  | c :: cs =>
    if h : c.isAlpha then
      capRun ((c :: cs).takeWhile Char.isAlpha) ++
        titleRuns ((c :: cs).dropWhile Char.isAlpha)
    else
      c :: titleRuns cs
termination_by l => l.length
decreasing_by
  · have hle : ∀ (l : List Char), (l.dropWhile Char.isAlpha).length ≤ l.length := by
      intro l
      induction l with
      | nil => simp [List.dropWhile]
      | cons a l ih =>
        rw [List.dropWhile_cons]
        split
        · exact Nat.le_succ_of_le ih
        · exact Nat.le_refl _
    rw [List.dropWhile_cons, if_pos h, List.length_cons]
    exact Nat.lt_succ_of_le (hle cs)
  · simp

/-! ## Concrete fixtures for witnesses and counterexamples -/

/-- Metadata whose only value-label entry is the empty dictionary. -/
def metaEmptyVL : Metadata :=
  { column_names_to_labels := []
    variable_value_labels := [("x", .dict [])]
    value_labels := [] }

/-- An integer-typed column named `x`. -/
def colX : Column := { name := "x", kind := .integer, values := [1, 2] }

/-- A loader whose parses always succeed with the `x` column and the
empty value-label entry of `metaEmptyVL`. -/
def loaderEmptyVL : Loader :=
  { read_dta := fun _ _ => .ok ([colX], metaEmptyVL)
    read_sav := fun _ => .ok ([colX], metaEmptyVL) }

/-- The converter state `_read_file` produces from `loaderEmptyVL`:
the `x` entry of `value_labels` exists but is empty. -/
def convEmptyVL : Converter :=
  { file_path := "d.dta"
    file_type := "stata"
    df := [colX]
    variable_labels := []
    value_labels := [("x", [])] }

/-- An integer column with no labels at all. -/
def colAge : Column := { name := "age", kind := .integer, values := [30, 40, 30] }

/-- An integer column carrying value labels. -/
def colGender : Column := { name := "gender", kind := .integer, values := [1, 2] }

/-- The spec's end-to-end scenario converter: `age` unlabeled,
`gender` with a variable label and value labels. -/
def convGender : Converter :=
  { file_path := "survey_2024.dta"
    file_type := "stata"
    df := [colAge, colGender]
    variable_labels := [("gender", "Gender")]
    value_labels := [("gender", [(1, "Male"), (2, "Female")])] }

/-- An empty filesystem. -/
def emptyWorld : World := ⟨[]⟩

/-- A filesystem holding a single data file under an unrecognized
extension. -/
def worldTxt : World := ⟨[("a.txt", .raw ⟨[]⟩)]⟩

/-! ## Helper lemmas -/

theorem dictGet_mem {α : Type} {m : List (String × α)} {k : String} {v : α}
    (h : dictGet m k = some v) : (k, v) ∈ m := by
  induction m with
  | nil => simp [dictGet] at h
  | cons kv rest ih =>
    obtain ⟨k0, v0⟩ := kv
    rw [dictGet] at h
    split at h
    · rename_i heq
      cases h
      subst heq
      exact List.mem_cons_self _ _
    · exact List.mem_cons_of_mem _ (ih h)

theorem choiceRowsOf_mem {m : List (String × List (Int × String))} {var : String}
    {pairs : List (Int × String)} {p : Int × String}
    (hm : (var, pairs) ∈ m) (hp : p ∈ pairs) :
    ({ list_name := var ++ "_choices", name := pyStrInt p.1, label := p.2 } : ChoiceRow)
      ∈ choiceRowsOf m := by
  induction m with
  | nil => simp at hm
  | cons kv rest ih =>
    obtain ⟨v0, ps0⟩ := kv
    rw [choiceRowsOf]
    rcases List.mem_cons.mp hm with heq | hm2
    · cases heq
      exact List.mem_append_left _ (List.mem_map_of_mem _ hp)
    · exact List.mem_append_right _ (ih hm2)

theorem choiceRowsOf_shape {m : List (String × List (Int × String))} {r : ChoiceRow}
    (h : r ∈ choiceRowsOf m) : ∃ var, r.list_name = var ++ "_choices" := by
  induction m with
  | nil => simp [choiceRowsOf] at h
  | cons kv rest ih =>
    obtain ⟨var, pairs⟩ := kv
    rw [choiceRowsOf] at h
    rcases List.mem_append.mp h with h1 | h2
    · obtain ⟨p, _, rfl⟩ := List.mem_map.mp h1
      exact ⟨var, rfl⟩
    · exact ih h2

theorem append_choices_ne (var s : String) (hs : s.length < 8) :
    var ++ "_choices" ≠ s := by
  intro h
  have hlen := congrArg String.length h
  rw [String.length_append] at hlen
  have h8 : String.length "_choices" = 8 := rfl
  rw [h8] at hlen
  omega

theorem select_one_choices_ne (var s : String) (hs : s.length < 19) :
    "select_one " ++ var ++ "_choices" ≠ s := by
  intro h
  have hlen := congrArg String.length h
  rw [String.length_append, String.length_append] at hlen
  have h11 : String.length "select_one " = 11 := rfl
  have h8 : String.length "_choices" = 8 := rfl
  rw [h11, h8] at hlen
  omega

theorem decDigit_isDigit (n : Nat) : (decDigit n).isDigit = true := by
  unfold decDigit
  repeat' split
  all_goals decide

theorem natDigitsAux_digits (fuel : Nat) :
    ∀ (n : Nat) (acc : List Char), (∀ ch ∈ acc, ch.isDigit = true) →
      ∀ ch ∈ natDigitsAux fuel n acc, ch.isDigit = true := by
  induction fuel with
  | zero =>
    intro n acc hacc ch hch
    rw [natDigitsAux] at hch
    exact hacc ch hch
  | succ fuel ih =>
    intro n acc hacc ch hch
    rw [natDigitsAux] at hch
    split at hch
    · rcases List.mem_cons.mp hch with rfl | h
      · exact decDigit_isDigit n
      · exact hacc ch h
    · refine ih (n / 10) _ ?_ ch hch
      intro ch2 hch2
      rcases List.mem_cons.mp hch2 with rfl | h
      · exact decDigit_isDigit (n % 10)
      · exact hacc ch2 h

theorem pyStrInt_chars (i : Int) :
    ∀ ch ∈ (pyStrInt i).data, ch = '-' ∨ ch.isDigit = true := by
  unfold pyStrInt
  split
  · intro ch hch
    rcases List.mem_cons.mp hch with rfl | h
    · exact Or.inl rfl
    · exact Or.inr (natDigitsAux_digits _ _ [] (by simp) ch h)
  · intro ch hch
    exact Or.inr (natDigitsAux_digits _ _ [] (by simp) ch hch)

/-! ## Claim theorems -/

/-- Claim C4: for every converter state, the choices sheet contains
exactly two rows with `list_name = "yes_no"` — `(name "1", label
"Yes")` and `(name "0", label "No")` — and they are the first two rows
emitted, regardless of the dataset. -/
theorem C4_yes_no_rows (c : Converter) :
    c.generate_choices_sheet.filter (fun r => r.list_name == "yes_no") =
      [{ list_name := "yes_no", name := "1", label := "Yes" },
       { list_name := "yes_no", name := "0", label := "No" }] ∧
    c.generate_choices_sheet.take 2 =
      [{ list_name := "yes_no", name := "1", label := "Yes" },
       { list_name := "yes_no", name := "0", label := "No" }] := by
  have hnil : (choiceRowsOf c.value_labels).filter (fun r => r.list_name == "yes_no") = [] := by
    rw [List.filter_eq_nil_iff]
    intro r hr
    obtain ⟨var, hv⟩ := choiceRowsOf_shape hr
    simp only [hv, beq_iff_eq]
    exact append_choices_ne var "yes_no" (by decide)
  constructor
  · rw [Converter.generate_choices_sheet, List.filter_cons, List.filter_cons, hnil]
    simp
  · rfl

/-- Claim C5: every (code, label) pair of a column's value-label entry
produces a choice row with `list_name = "<column>_choices"`, the code
rendered by Python `str` — decimal digits with at most a leading
minus, hence no decimal point and no sign padding, with code `1`
rendered as `"1"`. -/
theorem C5_choice_value_codes (c : Converter) (var : String)
    (pairs : List (Int × String)) (code : Int) (lab : String)
    (hmem : (var, pairs) ∈ c.value_labels) (hp : (code, lab) ∈ pairs) :
    ({ list_name := var ++ "_choices", name := pyStrInt code, label := lab } : ChoiceRow)
        ∈ c.generate_choices_sheet ∧
    (∀ ch ∈ (pyStrInt code).data, ch = '-' ∨ ch.isDigit = true) ∧
    pyStrInt 1 = "1" := by
  refine ⟨?_, pyStrInt_chars code, by decide⟩
  rw [Converter.generate_choices_sheet]
  exact List.mem_cons_of_mem _ (List.mem_cons_of_mem _
    (choiceRowsOf_mem hmem hp))

/-- Witness for C5 at the spec's end-to-end scenario: the `gender`
column's code `1` / label `"Male"` pair. -/
theorem C5_witness :
    ({ list_name := "gender" ++ "_choices", name := pyStrInt 1, label := "Male" } : ChoiceRow)
        ∈ convGender.generate_choices_sheet ∧
    (∀ ch ∈ (pyStrInt 1).data, ch = '-' ∨ ch.isDigit = true) ∧
    pyStrInt 1 = "1" :=
  C5_choice_value_codes convGender "gender" [(1, "Male"), (2, "Female")] 1 "Male"
    (by decide) (by decide)

/-- Claim C1 counterexample: on a column whose value-label entry is the
empty mapping, the spec's decision order (rule 1 demands a non-empty
entry, so an integer column falls to rule 2) answers `"integer"`, but
the code's inferencer answers `"select_one x_choices"`: membership, not
non-emptiness, is what the code tests. -/
theorem C1_counterexample :
    specInferType convEmptyVL.value_labels "x" .integer = "integer" ∧
    convEmptyVL.infer_question_type "x" (dtypeStr .integer) = "select_one x_choices" ∧
    ("select_one x_choices" : String) ≠ "integer" := by
  refine ⟨by decide, by decide, by decide⟩

/-- Claim C1 (amended): the inferred field type follows the
first-match-wins order with rule 1 firing whenever the column has ANY
value-label entry — including an empty one; then integer → `integer`,
floating-point → `decimal`, boolean → `select_one yes_no`; `text` is
the catch-all, so exactly one type string is always produced and the
unclassifiable case never errors. -/
theorem C1_amended_first_match (c : Converter) (var : String) (col : Column)
    (hcol : findCol c.df var = some col) :
    c.infer_question_type var (dtypeStr col.kind) =
      firstMatch
        [((dictGet c.value_labels var).isSome, "select_one " ++ var ++ "_choices"),
         (col.kind == .integer, "integer"),
         (col.kind == .floating, "decimal"),
         (col.kind == .boolean, "select_one yes_no")]
        "text" := by
  rw [Converter.infer_question_type, hcol]
  cases hh : (dictGet c.value_labels var).isSome
  · cases hk : col.kind <;> simp [firstMatch, hh, hk] <;> decide
  · simp [firstMatch, hh]

/-- Witness for the amended C1 at the unlabeled integer column `age`. -/
theorem C1_witness :
    convGender.infer_question_type "age" (dtypeStr colAge.kind) =
      firstMatch
        [((dictGet convGender.value_labels "age").isSome, "select_one " ++ "age" ++ "_choices"),
         (colAge.kind == .integer, "integer"),
         (colAge.kind == .floating, "decimal"),
         (colAge.kind == .boolean, "select_one yes_no")]
        "text" :=
  C1_amended_first_match convGender "age" colAge (by decide)

/-- Claim C2 counterexample: `_read_file` stores a zero-entry
value-label mapping (the loader returned `{"x": {}}`), and the
inferencer then classifies `x` as `select_one x_choices` instead of
falling through to the storage-kind rules — the claim's "if and only if
non-empty" fails in the only-if direction. -/
theorem C2_counterexample :
    read_file loaderEmptyVL (.raw ⟨[]⟩) "d.dta" "stata" = .ok convEmptyVL ∧
    dictGet convEmptyVL.value_labels "x" = some [] ∧
    convEmptyVL.infer_question_type "x" (dtypeStr .integer) =
      "select_one " ++ "x" ++ "_choices" := by
  refine ⟨by rfl, by decide, by decide⟩

/-- Claim C2 (amended): a field's inferred type is
`select_one <column>_choices` if and only if the column's value-label
entry EXISTS — emptiness of the entry is not consulted. -/
theorem C2_amended_iff (c : Converter) (var : String) (col : Column)
    (hcol : findCol c.df var = some col) :
    (c.infer_question_type var (dtypeStr col.kind) = "select_one " ++ var ++ "_choices")
      ↔ (dictGet c.value_labels var).isSome = true := by
  rw [Converter.infer_question_type, hcol]
  cases hh : (dictGet c.value_labels var).isSome
  · simp only [Bool.false_eq_true, if_false]
    constructor
    · intro h
      exfalso
      cases hk : col.kind <;> rw [hk] at h
      · exact select_one_choices_ne var "integer" (by decide) h.symm
      · exact select_one_choices_ne var "decimal" (by decide) h.symm
      · exact select_one_choices_ne var "select_one yes_no" (by decide) h.symm
      · exact select_one_choices_ne var "text" (by decide) h.symm
    · intro h
      cases h
  · simp

/-- Witness for the amended C2 at the value-labeled column `gender`. -/
theorem C2_witness :
    (convGender.infer_question_type "gender" (dtypeStr colGender.kind) =
      "select_one " ++ "gender" ++ "_choices")
      ↔ (dictGet convGender.value_labels "gender").isSome = true :=
  C2_amended_iff convGender "gender" colGender (by decide)

/-- Claim C3 counterexample: for the column `x` with a zero-entry
value-label mapping, the generated survey row has type
`select_one x_choices`, yet the choices sheet contains NO row with
`list_name = "x_choices"` — the claimed invariant fails. -/
theorem C3_counterexample :
    convEmptyVL.generate_survey_sheet =
      [{ type := "select_one " ++ "x" ++ "_choices", name := "x", label := "x" }] ∧
    convEmptyVL.generate_choices_sheet.filter
      (fun r => r.list_name == "x" ++ "_choices") = [] := by
  refine ⟨by decide, by decide⟩

/-- Claim C3 (amended): for every column whose value-label entry exists
and is NON-empty, the survey row has type `select_one <column>_choices`
and the choices sheet contains at least one row with
`list_name = "<column>_choices"`. -/
theorem C3_amended_select_one_has_choices (c : Converter) (col : Column)
    (pairs : List (Int × String))
    (hcol : col ∈ c.df)
    (hvl : dictGet c.value_labels col.name = some pairs)
    (hne : pairs ≠ []) :
    ({ type := "select_one " ++ col.name ++ "_choices", name := col.name,
       label := (dictGet c.variable_labels col.name).getD col.name } : SurveyRow)
        ∈ c.generate_survey_sheet ∧
    ∃ r ∈ c.generate_choices_sheet, r.list_name = col.name ++ "_choices" := by
  constructor
  · rw [Converter.generate_survey_sheet]
    refine List.mem_map.mpr ⟨col, hcol, ?_⟩
    simp [Converter.infer_question_type, hvl]
  · obtain ⟨p, ps, rfl⟩ : ∃ p ps, pairs = p :: ps := by
      cases pairs with
      | nil => exact absurd rfl hne
      | cons p ps => exact ⟨p, ps, rfl⟩
    refine ⟨{ list_name := col.name ++ "_choices", name := pyStrInt p.1, label := p.2 },
      ?_, rfl⟩
    rw [Converter.generate_choices_sheet]
    exact List.mem_cons_of_mem _ (List.mem_cons_of_mem _
      (choiceRowsOf_mem (dictGet_mem hvl) (List.mem_cons_self _ _)))

/-- Witness for the amended C3 at the `gender` column of the spec's
end-to-end scenario. -/
theorem C3_witness :
    ({ type := "select_one " ++ "gender" ++ "_choices", name := "gender",
       label := (dictGet convGender.variable_labels "gender").getD "gender" } : SurveyRow)
        ∈ convGender.generate_survey_sheet ∧
    ∃ r ∈ convGender.generate_choices_sheet, r.list_name = "gender" ++ "_choices" :=
  C3_amended_select_one_has_choices convGender colGender [(1, "Male"), (2, "Female")]
    (by decide) (by decide) (by decide)

/-- Claim C9: a column with no variable-label entry is reported with
label `""` by `get_variable_info` but with its own name as the label by
`generate_survey_sheet` — the two builders use different fallbacks for
a missing label. -/
theorem C9_label_fallbacks_differ (c : Converter) (col : Column)
    (hcol : col ∈ c.df)
    (hno : dictGet c.variable_labels col.name = none) :
    (col.name, "", dtypeStr col.kind, (dictGet c.value_labels col.name).isSome,
        col.values.dedup.length) ∈ c.get_variable_info ∧
    ({ type := c.infer_question_type col.name (dtypeStr col.kind), name := col.name,
       label := col.name } : SurveyRow) ∈ c.generate_survey_sheet := by
  constructor
  · rw [Converter.get_variable_info]
    refine List.mem_map.mpr ⟨col, hcol, ?_⟩
    simp [hno]
  · rw [Converter.generate_survey_sheet]
    refine List.mem_map.mpr ⟨col, hcol, ?_⟩
    simp [hno]

/-- Witness for C9 at the unlabeled `age` column. -/
theorem C9_witness :
    ("age", "", dtypeStr colAge.kind, (dictGet convGender.value_labels "age").isSome,
        colAge.values.dedup.length) ∈ convGender.get_variable_info ∧
    ({ type := convGender.infer_question_type "age" (dtypeStr colAge.kind), name := "age",
       label := "age" } : SurveyRow) ∈ convGender.generate_survey_sheet :=
  C9_label_fallbacks_differ convGender colAge (by decide) (by decide)

/-- Claim C7: when the input path does not exist, the entry point
raises `FileNotFoundError("File not found: ...")` and returns the
filesystem untouched — no output file is created, and the result is
the same for every loader, so no parse is attempted. -/
theorem C7_not_found_fails_fast (L : Loader) (w : World)
    (file_path output_path : String) (form_id form_title file_type : Option String)
    (h : w.lookup file_path = none) :
    data_to_xlsform L w file_path output_path form_id form_title file_type =
      (w, .error (.notFound ("File not found: " ++ file_path))) := by
  simp only [data_to_xlsform, DataToXLSForm, h]

/-- Witness for C7: converting a missing file over an empty filesystem. -/
theorem C7_witness :
    data_to_xlsform loaderEmptyVL emptyWorld "missing.dta" "out.xlsx" none none none =
      (emptyWorld, .error (.notFound ("File not found: " ++ "missing.dta"))) :=
  C7_not_found_fails_fast loaderEmptyVL emptyWorld "missing.dta" "out.xlsx"
    none none none rfl

/-- Claim C8: with no explicit file type, an existing input selects the
Stata reader for (lowercased) extension `.dta` and the SPSS reader for
`.sav`; any other extension raises the "Cannot infer file type"
ValueError — for every loader, hence before any parsing. -/
theorem C8_extension_dispatch (L : Loader) (w : World) (file_path : String)
    (fd : FileData) (h : w.lookup file_path = some fd) :
    (pyLower (pyExt file_path) = ".dta" →
      DataToXLSForm L w file_path none = read_file L fd file_path "stata") ∧
    (pyLower (pyExt file_path) = ".sav" →
      DataToXLSForm L w file_path none = read_file L fd file_path "spss") ∧
    (pyLower (pyExt file_path) ≠ ".dta" → pyLower (pyExt file_path) ≠ ".sav" →
      DataToXLSForm L w file_path none =
        .error (.valueError ("Cannot infer file type from extension '" ++
          pyLower (pyExt file_path) ++
          "'. Please specify file_type='stata' or file_type='spss'"))) := by
  refine ⟨fun h1 => ?_, fun h1 => ?_, fun h1 h2 => ?_⟩
  · simp only [DataToXLSForm, h]
    rw [if_pos h1]
  · simp only [DataToXLSForm, h]
    rw [h1]
    rfl
  · simp only [DataToXLSForm, h]
    rw [if_neg h1, if_neg h2]

/-- Witness for C8 at the unrecognized extension `.txt`. -/
theorem C8_witness :
    DataToXLSForm loaderEmptyVL worldTxt "a.txt" none =
      .error (.valueError ("Cannot infer file type from extension '" ++
        pyLower (pyExt "a.txt") ++
        "'. Please specify file_type='stata' or file_type='spss'")) :=
  (C8_extension_dispatch loaderEmptyVL worldTxt "a.txt" (.raw ⟨[]⟩) rfl).2.2
    (by decide) (by decide)

/-- Claim C10: an explicit file type is lowercased before use
(`"STATA"` behaves exactly as `"stata"`), and an explicit type whose
lowercase form is neither `stata` nor `spss` passes the extension
check and fails inside the read step — for every loader — with the
wrapped ValueError naming that type, not with the "Cannot infer file
type" error. -/
theorem C10_explicit_type_lowercased (L : Loader) (w : World) (file_path : String)
    (fd : FileData) (t : String) (h : w.lookup file_path = some fd) :
    DataToXLSForm L w file_path (some "STATA") =
      DataToXLSForm L w file_path (some "stata") ∧
    (pyLower t ≠ "stata" → pyLower t ≠ "spss" →
      DataToXLSForm L w file_path (some t) =
        .error (.valueError ("Error reading " ++ pyUpper (pyLower t) ++ " file: " ++
          ("Unsupported file type: " ++ pyLower t)))) := by
  constructor
  · simp only [DataToXLSForm, h]
    rfl
  · intro h1 h2
    simp only [DataToXLSForm, h, read_file]
    rw [if_neg h1, if_neg h2]

/-- Witness for C10: the uppercase alias and the unsupported explicit
type `csv`. -/
theorem C10_witness :
    DataToXLSForm loaderEmptyVL worldTxt "a.txt" (some "STATA") =
      DataToXLSForm loaderEmptyVL worldTxt "a.txt" (some "stata") ∧
    DataToXLSForm loaderEmptyVL worldTxt "a.txt" (some "csv") =
      .error (.valueError ("Error reading " ++ pyUpper (pyLower "csv") ++ " file: " ++
        ("Unsupported file type: " ++ pyLower "csv"))) := by
  have h := C10_explicit_type_lowercased loaderEmptyVL worldTxt "a.txt" (.raw ⟨[]⟩)
    "csv" rfl
  exact ⟨h.1, h.2 (by decide) (by decide)⟩

theorem length_dropWhile_le_alpha (l : List Char) :
    (l.dropWhile Char.isAlpha).length ≤ l.length := by
  induction l with
  | nil => simp [List.dropWhile]
  | cons a l ih =>
    rw [List.dropWhile_cons]
    split
    · exact Nat.le_succ_of_le ih
    · exact Nat.le_refl _

theorem pyTitleAux_true (cs : List Char) :
    pyTitleAux cs true =
      (cs.takeWhile Char.isAlpha).map Char.toLower ++
        pyTitleAux (cs.dropWhile Char.isAlpha) false := by
  induction cs with
  | nil => rfl
  | cons c cs ih =>
    cases hc : c.isAlpha
    · simp [pyTitleAux, List.takeWhile_cons, List.dropWhile_cons, hc]
    · simp [pyTitleAux, List.takeWhile_cons, List.dropWhile_cons, hc, ih]

theorem pyTitleAux_false_eq_titleRuns_bounded (n : Nat) :
    ∀ cs : List Char, cs.length ≤ n → pyTitleAux cs false = titleRuns cs := by
  induction n with
  | zero =>
    intro cs h
    cases cs with
    | nil => simp [pyTitleAux, titleRuns]
    | cons c cs => simp at h
  | succ n ih =>
    intro cs h
    cases cs with
    | nil => simp [pyTitleAux, titleRuns]
    | cons c cs =>
      rw [List.length_cons] at h
      have hlen : cs.length ≤ n := Nat.le_of_succ_le_succ h
      cases hc : c.isAlpha
      · rw [pyTitleAux, titleRuns, dif_neg (by simp [hc]), hc, ih cs hlen]
        simp
      · rw [pyTitleAux, titleRuns, dif_pos hc]
        simp only [hc, if_true, pyTitleAux_true]
        rw [List.takeWhile_cons, List.dropWhile_cons, if_pos hc, if_pos hc, capRun]
        rw [ih _ (Nat.le_trans (length_dropWhile_le_alpha cs) hlen)]
        simp

theorem pyTitleAux_false_eq_titleRuns (cs : List Char) :
    pyTitleAux cs false = titleRuns cs :=
  pyTitleAux_false_eq_titleRuns_bounded cs.length cs (Nat.le_refl _)

theorem pyTitle_eq_titleRuns (s : String) : pyTitle s = ⟨titleRuns s.data⟩ := by
  rw [pyTitle, pyTitleAux_false_eq_titleRuns]

/-- Claim C6 counterexample: for source base name `a2b` with no
overrides the code produces form_title `"A2B"` — Python `str.title()`
capitalizes a letter that follows a digit — while the claim's
description (underscores to spaces, then each word's first letter
capitalized) gives `"A2b"`. -/
theorem C6_counterexample :
    (({ file_path := "a2b.dta", file_type := "stata", df := [], variable_labels := [],
        value_labels := [] } : Converter).generate_settings_sheet none none).form_title
      = "A2B" ∧
    specFormTitle "a2b" = "A2b" ∧
    ("A2B" : String) ≠ "A2b" := by
  refine ⟨by decide, by decide, by decide⟩

/-- Claim C6 (amended): `form_id` is the override if provided, else the
source file's base name without extension; `form_title` is its override
if provided, else the `form_id` with underscores replaced by spaces and
Python title-casing applied — each maximal run of letters gets its
first letter uppercased and its remaining letters lowercased, every
non-letter character (digits included) passing through and delimiting
runs.  In particular input path `survey_2024.dta` with no overrides
gives form_id `"survey_2024"` and form_title `"Survey 2024"`. -/
theorem C6_settings_fallbacks (c : Converter) (form_id form_title : Option String) :
    (c.generate_settings_sheet form_id form_title).form_id =
      form_id.getD (splitextRoot (pyBasename c.file_path)) ∧
    (c.generate_settings_sheet form_id form_title).form_title =
      form_title.getD
        ⟨titleRuns (pyReplaceUnderscore
          ((c.generate_settings_sheet form_id form_title).form_id)).data⟩ ∧
    ({ file_path := "survey_2024.dta", file_type := "stata", df := [],
       variable_labels := [], value_labels := [] } : Converter).generate_settings_sheet
        none none =
      { form_title := "Survey 2024", form_id := "survey_2024" } := by
  refine ⟨rfl, ?_, by decide⟩
  cases form_title with
  | none =>
    show pyTitle (pyReplaceUnderscore _) = _
    rw [pyTitle_eq_titleRuns]
    rfl
  | some t => rfl

end DtaXlsform
